import Mathlib

/-!
Shallow embedding of the NutriGraph ingredient-resolution engine
(`src/backend/retriever.py` and `src/backend/clarification_graph.py`).

Strings are modelled by Lean `String`, with character-level helpers for the
Python operations `str.strip()`, `str.lower()`, `str.split()` and the
substring test `a in b`, written as structural recursions over `List Char`
so that they evaluate inside the kernel.  Python floats are modelled by `ℚ`;
`round(x, 6)` is modelled by round-half-to-even at six decimal places, which
is Python's rounding mode.  The embedding model and the vector store are the
two external collaborators; they are passed in as function parameters.
Fallible collaborator calls return `Except CollabError`, mirroring Python
exceptions.
-/

/-- Character-level model of Python `str.lower()` (ASCII case folding). -/
def lowerCh (cs : List Char) : List Char := cs.map Char.toLower

/-- Character-level model of Python `str.strip()`: drop leading and trailing
whitespace. -/
def trimChars (cs : List Char) : List Char :=
  ((cs.dropWhile Char.isWhitespace).reverse.dropWhile Char.isWhitespace).reverse

/-- The definition `pyStrip s` models Python `s.strip()`. -/
def pyStrip (s : String) : String := String.mk (trimChars s.data)

/-- Model of Python `str.split()` (split on whitespace runs, no empty
tokens); `acc` is the reversed current token. -/
def splitWs : List Char → List Char → List String
  | [], acc => if acc.isEmpty then [] else [String.mk acc.reverse]
  | c :: cs, acc =>
    if c.isWhitespace then
      if acc.isEmpty then splitWs cs [] else String.mk acc.reverse :: splitWs cs []
    else splitWs cs (c :: acc)

/-- Boolean prefix test on character lists. -/
def isPrefixCh : List Char → List Char → Bool
  | [], _ => true
  | _ :: _, [] => false
  | a :: as, b :: bs => a = b && isPrefixCh as bs

/-- Boolean substring test on character lists; models Python `p in s` for
strings (the empty string is a substring of every string). -/
def isSubstrCh (p s : List Char) : Bool :=
  isPrefixCh p s ||
    (match s with
     | [] => false
     | _ :: t => isSubstrCh p t)

/-- Round-half-to-even to an integer, Python's rounding mode for `round`. -/
def rhe (x : ℚ) : ℤ :=
  if x - ⌊x⌋ < 1/2 then ⌊x⌋
  else if 1/2 < x - ⌊x⌋ then ⌊x⌋ + 1
  else if ⌊x⌋ % 2 = 0 then ⌊x⌋ else ⌊x⌋ + 1

/-- Model of Python `round(x, 6)`. -/
def round6 (x : ℚ) : ℚ := (rhe (x * 1000000) : ℚ) / 1000000

/-! ## `src/backend/retriever.py` -/

/-- The definition `_KEYWORD_BOOST` from `retriever.py`. -/
def _KEYWORD_BOOST : ℚ := 0.15

/-- The definition `_distance_to_score` from `retriever.py`:
`round(1.0 / (1.0 + distance), 6)`.  Note: no clamping of negative
distances, and the result is rounded to six decimal places. -/
def _distance_to_score (distance : ℚ) : ℚ :=
  round6 (1.0 / (1.0 + distance))

/-- ChromaDB document metadata, as read defensively by the retriever and the
clarification graph.  An absent key and a key stored with Python `None` are
both modelled by `none`. -/
structure Meta where
  exact_name : Option String := none
  name : Option String := none
  source : Option String := none
  brand : Option String := none
  energy_kcal : Option ℚ := none
  protein_g : Option ℚ := none
  carbohydrates_g : Option ℚ := none
  carbs_g : Option ℚ := none
  fat_g : Option ℚ := none
  fdc_id : Option ℤ := none
deriving DecidableEq

/-- The definition `RetrievedIngredient` from `src/core/models.py`, as populated by
`_build_ingredient`. -/
structure RetrievedIngredient where
  id : String
  name : String
  brand : Option String
  similarity_score : ℚ
  calories : Option ℚ
  protein : Option ℚ
  carbs : Option ℚ
  fat : Option ℚ
deriving DecidableEq

/-- Python string-`or` fallthrough: `a or b` where an absent or empty string
is falsy. -/
def strOrElse (a : Option String) (b : String) : String :=
  match a with
  | some s => if s = "" then b else s
  | none => b

/-- The definition `str(meta.get("exact_name") or meta.get("name") or "")`. -/
def metaDisplayName (m : Meta) : String :=
  strOrElse m.exact_name (strOrElse m.name "")

/-- The definition `meta.get("brand") or None`: an empty brand string becomes `None`. -/
def truthyBrand (a : Option String) : Option String :=
  match a with
  | some s => if s = "" then none else some s
  | none => none

/-- The definition `_build_ingredient` from `retriever.py`. -/
def _build_ingredient (doc_id : String) (distance : ℚ) (meta : Meta)
    (score_override : Option ℚ := none) : RetrievedIngredient :=
  let base_score := score_override.getD (_distance_to_score distance)
  let carbs_raw :=
    match meta.carbs_g with
    | some v => some v
    | none => meta.carbohydrates_g
  { id := doc_id
    name := metaDisplayName meta
    brand := truthyBrand meta.brand
    similarity_score := round6 base_score
    calories := meta.energy_kcal
    protein := meta.protein_g
    carbs := carbs_raw
    fat := meta.fat_g }

/-- One row of a ChromaDB `collection.query` response for a single query
vector (`ids[0]`, `distances[0]`, `metadatas[0]`).  A metadata entry may be
Python `None`. -/
structure QueryResp where
  ids : List String := []
  distances : List ℚ := []
  metadatas : List (Option Meta) := []
deriving DecidableEq

/-- Failures of the external collaborators, and the `IndexError` the
retriever itself raises when a store response has inconsistent row lengths.
`filterNotApplicable` is ChromaDB rejecting a `where` filter on a field
absent from every document; `storeUnavailable` is a genuine
transport/availability failure. -/
inductive CollabError where
  | storeUnavailable
  | filterNotApplicable
  | modelUnavailable
  | indexError
deriving DecidableEq

/-- The vector-store collaborator for single-vector queries: an embedding, a
result count `n_results`, and an optional brand equality filter. -/
abbrev Store (E : Type) := E → ℕ → Option String → Except CollabError QueryResp

/-- The per-candidate score adjustment of the unfiltered path
(`keyword_boosted_score` in the spec): the query is stripped and lowercased,
and `_KEYWORD_BOOST` is added when it occurs as a substring of the lowercased
candidate name. -/
def keyword_boosted_score (base_similarity : ℚ) (query : String)
    (candidate_name : String) : ℚ :=
  let query_lower := lowerCh (trimChars query.data)
  let keyword_hit := isSubstrCh query_lower (lowerCh candidate_name.data)
  base_similarity + (if keyword_hit then _KEYWORD_BOOST else 0)

/-- The candidate list built by `_search_semantic_boosted` before the final
sort: one `RetrievedIngredient` per store id, scored with the keyword
boost. -/
def boostedCandidates (raw : QueryResp) (query : String) : List RetrievedIngredient :=
  (raw.ids.zip (raw.distances.zip raw.metadatas)).map (fun p =>
    let meta := p.2.2.getD {}
    let base_score := _distance_to_score p.2.1
    let exact_name := metaDisplayName meta
    let adjusted_score := keyword_boosted_score base_score query exact_name
    _build_ingredient p.1 p.2.1 meta (some adjusted_score))

/-- Stable insertion (descending by `key`): the inserted element goes in
front of the first element whose key is `≤` its own. -/
def insertDescBy (key : α → ℚ) (e : α) : List α → List α
  | [] => [e]
  | x :: xs => if key x ≤ key e then e :: x :: xs else x :: insertDescBy key e xs

/-- Stable descending sort by `key`; models Python
`list.sort(key=..., reverse=True)`, which is stable. -/
def sortDescBy (key : α → ℚ) : List α → List α
  | [] => []
  | x :: xs => insertDescBy key x (sortDescBy key xs)

/-- The definition `_search_semantic_boosted` from `retriever.py`: unfiltered semantic
search, keyword boost, stable re-sort by adjusted score descending.  A store
response whose `distances`/`metadatas` rows are shorter than `ids` makes the
Python loop raise `IndexError`, modelled by `CollabError.indexError`. -/
def _search_semantic_boosted (store : Store E) (query_embedding : E)
    (query : String) (top_k : ℕ) : Except CollabError (List RetrievedIngredient) :=
  match store query_embedding top_k none with
  | .error err => .error err
  | .ok raw =>
    if raw.distances.length < raw.ids.length ∨ raw.metadatas.length < raw.ids.length then
      .error .indexError
    else
      .ok (sortDescBy (fun r => r.similarity_score) (boostedCandidates raw query))

/-- The definition `_search_with_brand` from `retriever.py`: brand-filtered vector search.
The whole filtered request and result assembly sit inside
`try: ... except Exception: pass`, so any store error — and any
`IndexError` from inconsistent row lengths — falls through to the
unfiltered fallback, which uses the brand string as the query text for the
keyword boost but keeps the original query embedding. -/
def _search_with_brand (store : Store E) (query_embedding : E) (brand : String)
    (top_k : ℕ) : Except CollabError (List RetrievedIngredient) :=
  let fallback := _search_semantic_boosted store query_embedding brand top_k
  match store query_embedding top_k (some brand) with
  | .error _ => fallback
  | .ok raw =>
    if raw.ids = [] then fallback
    else if raw.distances.length < raw.ids.length ∨ raw.metadatas.length < raw.ids.length then
      fallback
    else
      .ok ((raw.ids.zip (raw.distances.zip raw.metadatas)).map (fun p =>
        _build_ingredient p.1 p.2.1 (p.2.2.getD {}) none))

/-- The definition `HybridNutritionRetriever.search_ingredient`: embed the stripped query,
then run either the brand-filtered path or the unfiltered boosted path. -/
def search_ingredient (embed : String → Except CollabError E) (store : Store E)
    (query : String) (brand : Option String) (top_k : ℕ) :
    Except CollabError (List RetrievedIngredient) :=
  match embed (pyStrip query) with
  | .error err => .error err
  | .ok query_embedding =>
    match brand with
    | some b => _search_with_brand store query_embedding b top_k
    | none => _search_semantic_boosted store query_embedding query top_k

/-! ## `src/backend/clarification_graph.py` -/

/-- The definition `RetrievalMatch` from `clarification_graph.py` (the fields the code
actually writes are all populated, so they are not optional here). -/
structure RetrievalMatch where
  id : String
  name : String
  source : String
  distance : ℚ
  score : ℚ
  energy_kcal : Option ℚ
  protein_g : Option ℚ
  carbohydrates_g : Option ℚ
  fat_g : Option ℚ
  fdc_id : Option ℤ
deriving DecidableEq

/-- The definition `ClarificationState`: a `TypedDict` with `total=False`, so every field is
optional; an absent key is `none`. -/
structure ClarificationState where
  ingredients : Option (List String) := none
  threshold : Option ℚ := none
  «matches» : Option (List (List RetrievalMatch)) := none
  scores : Option (List ℚ) := none
  low_conf_indices : Option (List ℕ) := none
  low_conf_ingredients : Option (List String) := none
  questions : Option (List String) := none
deriving DecidableEq

/-- The definition `_compute_score` from `clarification_graph.py`:
`1.0 / (1.0 + max(distance, 0.0))`. -/
def _compute_score (distance : ℚ) : ℚ :=
  1.0 / (1.0 + max distance 0.0)

/-- The definition `_lexical_overlap` from `clarification_graph.py`: Jaccard overlap of the
lowercased whitespace token sets. -/
def _lexical_overlap (query : String) (candidate : String) : ℚ :=
  let q_tokens := (splitWs (lowerCh query.data) []).toFinset
  let c_tokens := (splitWs (lowerCh candidate.data) []).toFinset
  if q_tokens = ∅ ∨ c_tokens = ∅ then 0.0
  else
    let inter := q_tokens ∩ c_tokens
    let union := q_tokens ∪ c_tokens
    if union = ∅ then 0.0
    else (inter.card : ℚ) / (union.card : ℚ)

/-- The definition `_combined_match_score` from `clarification_graph.py`:
`0.7 * sim_dist + 0.3 * lex`. -/
def _combined_match_score (distance : ℚ) (query : String) (candidate_name : String) : ℚ :=
  0.7 * _compute_score distance + 0.3 * _lexical_overlap query candidate_name

/-- A batched ChromaDB `collection.query` response: one row per query
embedding. -/
structure BatchResp where
  ids : List (List String) := []
  distances : List (List ℚ) := []
  metadatas : List (List (Option Meta)) := []
deriving DecidableEq

/-- One `RetrievalMatch` as assembled inside `retrieve_node`'s inner loop. -/
def mkRetrievalMatch (mid : String) (distance : ℚ) (meta : Meta)
    (query_text : String) : RetrievalMatch :=
  let name := meta.name.getD ""
  { id := mid
    name := name
    source := meta.source.getD ""
    distance := distance
    score := _combined_match_score distance query_text name
    energy_kcal := meta.energy_kcal
    protein_g := meta.protein_g
    carbohydrates_g := meta.carbohydrates_g
    fat_g := meta.fat_g
    fdc_id := meta.fdc_id }

/-- The per-ingredient body of `retrieve_node`'s outer loop: build the match
list for row `idx` (skipping entries whose distance is missing), track the
best combined score (starting from `0.0`), and sort the matches by score
descending.  Row access `result.get(..., [[]])[idx]` is modelled totally
with an empty-row default. -/
def retrieveRow (result : BatchResp) (idx : ℕ) (query_text : String) :
    List RetrievalMatch × ℚ :=
  let ids := result.ids.getD idx []
  let dists := result.distances.getD idx []
  let metadatas := result.metadatas.getD idx []
  let ing_matches := ids.enum.filterMap (fun p =>
    if p.1 < dists.length then
      some (mkRetrievalMatch p.2 (dists.getD p.1 0) ((metadatas.getD p.1 none).getD {}) query_text)
    else none)
  let best_score := ing_matches.foldl (fun acc m => max acc m.score) 0.0
  (sortDescBy (fun m => m.score) ing_matches, best_score)

/-- The definition `retrieve_node` from `clarification_graph.py`.  `encode` is the batch
embedding collaborator, `queryStore` the batched vector-store query
(`n_results=5`). -/
def retrieve_node (encode : List String → List E)
    (queryStore : List E → ℕ → BatchResp) (state : ClarificationState) :
    ClarificationState :=
  let ingredients := ((state.ingredients.getD []).map pyStrip).filter (fun t => t ≠ "")
  if ingredients.isEmpty then
    { state with
      «matches» := some []
      scores := some []
      low_conf_indices := some []
      low_conf_ingredients := some [] }
  else
    let embeddings := encode ingredients
    let result := queryStore embeddings 5
    let rows := ingredients.enum.map (fun p => retrieveRow result p.1 p.2)
    { state with
      «matches» := some (rows.map Prod.fst)
      scores := some (rows.map Prod.snd) }

/-- The definition `decide_low_conf_node` from `clarification_graph.py`: use the state's
threshold when present, else the default bound in at graph build time;
collect the indices of scores strictly below the threshold, and mirror them
into the raw `ingredients` list. -/
def decide_low_conf_node (state : ClarificationState)
    (default_threshold : ℚ := 0.7) : ClarificationState :=
  let threshold := state.threshold.getD default_threshold
  let scores := state.scores.getD []
  let ingredients := state.ingredients.getD []
  let low_indices := (scores.enum.filter (fun p => p.2 < threshold)).map Prod.fst
  { state with
    low_conf_indices := some low_indices
    low_conf_ingredients :=
      some (low_indices.filterMap (fun idx =>
        if idx < ingredients.length then some (ingredients.getD idx "") else none)) }

/-- The two targets of the conditional edge out of `decide_low_conf`. -/
inductive RouteTarget where
  | ask
  | done
deriving DecidableEq

/-- The definition `router` from `clarification_graph.py`: Python truthiness of
`state.get("low_conf_indices")` — absent or empty means END. -/
def router (state : ClarificationState) : RouteTarget :=
  if (state.low_conf_indices.getD []).isEmpty then .done else .ask

/-- The deterministic clarification-question template of `ask_node`. -/
def question_text (ing : String) : String :=
  "For the ingredient '" ++ ing ++
    "', can you clarify details such as brand, cooking method (e.g., grilled vs fried), or any sauces/seasonings?"

/-- The definition `ask_node` from `clarification_graph.py`. -/
def ask_node (state : ClarificationState) : ClarificationState :=
  { state with
    questions := some ((state.low_conf_ingredients.getD []).map question_text) }

/-- The compiled graph of `build_clarification_graph`:
`retrieve → decide_low_conf →(router) {ask, END}`. -/
def run_clarification_graph (encode : List String → List E)
    (queryStore : List E → ℕ → BatchResp) (default_threshold : ℚ)
    (state : ClarificationState) : ClarificationState :=
  let s1 := retrieve_node encode queryStore state
  let s2 := decide_low_conf_node s1 default_threshold
  match router s2 with
  | .ask => ask_node s2
  | .done => s2

/-! ## Concrete stub collaborators (for exercising the retriever paths) -/

/-- A store row with a single candidate at distance `0` and empty
metadata. -/
def stubResp (tag : String) : QueryResp :=
  { ids := [tag], distances := [0], metadatas := [some {}] }

/-- The `RetrievedIngredient` built from `stubResp tag` when no keyword
boost applies. -/
def stubIngredient (tag : String) : RetrievedIngredient :=
  { id := tag, name := "", brand := none, similarity_score := 1,
    calories := none, protein := none, carbs := none, fat := none }

/-- Embedding stub mapping the query `"q"` to vector `0` and every other
text to vector `1`. -/
def stubEmbed : String → Except CollabError ℕ :=
  fun s => .ok (if s = "q" then 0 else 1)

/-- Embedding stub mapping every text to vector `0`. -/
def stubEmbedZero : String → Except CollabError ℕ :=
  fun _ => .ok 0

/-- Store stub whose brand-filtered queries match nothing and whose
unfiltered answer depends on the query embedding. -/
def stubStoreBrandEmpty : Store ℕ :=
  fun e _ f =>
    match f with
    | some _ => .ok {}
    | none => .ok (if e = 0 then stubResp "hit-q" else stubResp "hit-b")

/-- Store stub whose brand-filtered queries fail with a transport error and
whose unfiltered queries succeed. -/
def stubStoreBrandFail : Store ℕ :=
  fun _ _ f =>
    match f with
    | some _ => .error .storeUnavailable
    | none => .ok (stubResp "x1")

/-! ## Helper lemmas: the stable descending sort -/

theorem insertDescBy_perm (key : α → ℚ) (e : α) (l : List α) :
    List.Perm (insertDescBy key e l) (e :: l) := by
  induction l with
  | nil => exact List.Perm.refl _
  | cons x xs ih =>
    simp only [insertDescBy]
    split
    · exact List.Perm.refl _
    · exact (ih.cons x).trans (List.Perm.swap e x xs)

theorem sortDescBy_perm (key : α → ℚ) (l : List α) : List.Perm (sortDescBy key l) l := by
  induction l with
  | nil => exact List.Perm.refl _
  | cons x xs ih => exact (insertDescBy_perm key x _).trans (ih.cons x)

theorem length_sortDescBy (key : α → ℚ) (l : List α) :
    (sortDescBy key l).length = l.length :=
  (sortDescBy_perm key l).length_eq

theorem pairwise_insertDescBy (key : α → ℚ) (e : α) {l : List α}
    (h : l.Pairwise (fun a b => key b ≤ key a)) :
    (insertDescBy key e l).Pairwise (fun a b => key b ≤ key a) := by
  induction l with
  | nil => simp [insertDescBy]
  | cons x xs ih =>
    rw [List.pairwise_cons] at h
    obtain ⟨hx, hxs⟩ := h
    simp only [insertDescBy]
    split
    · rename_i hle
      rw [List.pairwise_cons]
      refine ⟨?_, List.pairwise_cons.mpr ⟨hx, hxs⟩⟩
      intro b hb
      rcases List.mem_cons.mp hb with rfl | hb
      · exact hle
      · exact le_trans (hx b hb) hle
    · rename_i hnle
      rw [List.pairwise_cons]
      refine ⟨?_, ih hxs⟩
      intro b hb
      rcases List.mem_cons.mp ((insertDescBy_perm key e xs).mem_iff.mp hb) with rfl | hb
      · exact le_of_lt (lt_of_not_le hnle)
      · exact hx b hb

theorem sortDescBy_sorted (key : α → ℚ) (l : List α) :
    (sortDescBy key l).Pairwise (fun a b => key b ≤ key a) := by
  induction l with
  | nil => simp [sortDescBy]
  | cons x xs ih => exact pairwise_insertDescBy key x ih

theorem filter_insertDescBy_neg (key : α → ℚ) (p : α → Bool) (e : α) (l : List α)
    (he : p e = false) : (insertDescBy key e l).filter p = l.filter p := by
  induction l with
  | nil => simp [insertDescBy, List.filter_cons, he]
  | cons x xs ih =>
    simp only [insertDescBy]
    split
    · simp [List.filter_cons, he]
    · rw [List.filter_cons, List.filter_cons, ih]

theorem filter_insertDescBy_pos (key : α → ℚ) (p : α → Bool) (e : α) (l : List α)
    (hkey : ∀ a b, p a = true → p b = true → key a = key b) (he : p e = true) :
    (insertDescBy key e l).filter p = e :: l.filter p := by
  induction l with
  | nil => simp [insertDescBy, List.filter_cons, he]
  | cons x xs ih =>
    simp only [insertDescBy]
    split
    · simp [List.filter_cons, he]
    · rename_i hnle
      have hx : p x = false := by
        by_contra hx'
        exact hnle (le_of_eq (hkey x e (eq_true_of_ne_false hx') he))
      rw [List.filter_cons, List.filter_cons, ih, hx]
      simp

theorem filter_sortDescBy (key : α → ℚ) (p : α → Bool) (l : List α)
    (hkey : ∀ a b, p a = true → p b = true → key a = key b) :
    (sortDescBy key l).filter p = l.filter p := by
  induction l with
  | nil => rfl
  | cons x xs ih =>
    simp only [sortDescBy]
    by_cases hx : p x = true
    · rw [filter_insertDescBy_pos key p x _ hkey hx, ih, List.filter_cons, if_pos hx]
    · have hx' : p x = false := Bool.eq_false_iff.mpr hx
      rw [filter_insertDescBy_neg key p x _ hx', ih, List.filter_cons, if_neg (by simp [hx'])]

/-! ## Helper lemmas: round-half-to-even and `round6` -/

theorem floor_le_rhe (x : ℚ) : ⌊x⌋ ≤ rhe x := by
  unfold rhe
  split_ifs <;> omega

theorem rhe_le_floor_add_one (x : ℚ) : rhe x ≤ ⌊x⌋ + 1 := by
  unfold rhe
  split_ifs <;> omega

theorem rhe_mono {x y : ℚ} (h : x ≤ y) : rhe x ≤ rhe y := by
  rcases lt_or_le ⌊x⌋ ⌊y⌋ with hf | hf
  · calc rhe x ≤ ⌊x⌋ + 1 := rhe_le_floor_add_one x
      _ ≤ ⌊y⌋ := by omega
      _ ≤ rhe y := floor_le_rhe y
  · have hfe : ⌊x⌋ = ⌊y⌋ := le_antisymm (Int.floor_le_floor h) hf
    unfold rhe
    rw [hfe]
    have hr : x - (⌊y⌋ : ℚ) ≤ y - (⌊y⌋ : ℚ) := by linarith
    split_ifs <;> first | omega | linarith

theorem rhe_intCast (n : ℤ) : rhe (n : ℚ) = n := by
  unfold rhe
  rw [Int.floor_intCast]
  norm_num

theorem round6_mono {x y : ℚ} (h : x ≤ y) : round6 x ≤ round6 y := by
  unfold round6
  have h1 : rhe (x * 1000000) ≤ rhe (y * 1000000) := rhe_mono (by linarith)
  have h2 : ((rhe (x * 1000000) : ℤ) : ℚ) ≤ ((rhe (y * 1000000) : ℤ) : ℚ) := by
    exact_mod_cast h1
  linarith

theorem round6_div_1000000 (n : ℤ) : round6 ((n : ℚ) / 1000000) = (n : ℚ) / 1000000 := by
  unfold round6
  have h : ((n : ℚ) / 1000000) * 1000000 = (n : ℚ) := by
    field_simp
  rw [h, rhe_intCast]

theorem round6_zero : round6 0 = 0 := by
  have := round6_div_1000000 0
  simpa using this

theorem round6_one : round6 1 = 1 := by
  have := round6_div_1000000 1000000
  norm_num at this
  simpa using this

theorem round6_round6 (x : ℚ) : round6 (round6 x) = round6 x := by
  unfold round6
  have h : ((rhe (x * 1000000) : ℤ) : ℚ) / 1000000 * 1000000 = ((rhe (x * 1000000) : ℤ) : ℚ) := by
    field_simp
  rw [h, rhe_intCast]

theorem round6_add_boost (x : ℚ) (b : Bool) :
    round6 (round6 x + (if b then _KEYWORD_BOOST else 0)) =
      round6 x + (if b then _KEYWORD_BOOST else 0) := by
  cases b
  · simpa using round6_round6 x
  · simp only [if_pos trivial, _KEYWORD_BOOST]
    have h : round6 x + (0.15 : ℚ) = ((rhe (x * 1000000) + 150000 : ℤ) : ℚ) / 1000000 := by
      unfold round6
      push_cast
      norm_num
      ring
    rw [h, round6_div_1000000]

/-! ## Helper lemmas: score functions -/

theorem compute_score_eq (d : ℚ) : _compute_score d = 1 / (1 + max d 0) := by
  unfold _compute_score
  norm_num

theorem compute_score_of_nonneg {d : ℚ} (h : 0 ≤ d) : _compute_score d = 1 / (1 + d) := by
  rw [compute_score_eq, max_eq_left h]

theorem compute_score_of_nonpos {d : ℚ} (h : d ≤ 0) : _compute_score d = 1 := by
  rw [compute_score_eq, max_eq_right h]
  norm_num

theorem compute_score_pos (d : ℚ) : 0 < _compute_score d := by
  rw [compute_score_eq]
  have h : (0 : ℚ) ≤ max d 0 := le_max_right d 0
  exact div_pos one_pos (by linarith)

theorem compute_score_le_one (d : ℚ) : _compute_score d ≤ 1 := by
  rw [compute_score_eq]
  have h : (0 : ℚ) ≤ max d 0 := le_max_right d 0
  rw [div_le_one (by linarith)]
  linarith

theorem compute_score_strictAnti {d1 d2 : ℚ} (h0 : 0 ≤ d1) (h : d1 < d2) :
    _compute_score d2 < _compute_score d1 := by
  rw [compute_score_of_nonneg h0, compute_score_of_nonneg (le_trans h0 h.le)]
  apply one_div_lt_one_div_of_lt <;> linarith

theorem distance_to_score_eq_round6 {d : ℚ} (h : 0 ≤ d) :
    _distance_to_score d = round6 (_compute_score d) := by
  unfold _distance_to_score
  rw [compute_score_of_nonneg h]
  norm_num

theorem distance_to_score_nonneg {d : ℚ} (h : 0 ≤ d) : 0 ≤ _distance_to_score d := by
  rw [distance_to_score_eq_round6 h, ← round6_zero]
  exact round6_mono (le_of_lt (compute_score_pos d))

theorem distance_to_score_le_one {d : ℚ} (h : 0 ≤ d) : _distance_to_score d ≤ 1 := by
  rw [distance_to_score_eq_round6 h, ← round6_one]
  exact round6_mono (compute_score_le_one d)

theorem distance_to_score_anti {d1 d2 : ℚ} (h0 : 0 ≤ d1) (h : d1 ≤ d2) :
    _distance_to_score d2 ≤ _distance_to_score d1 := by
  rcases eq_or_lt_of_le h with rfl | hlt
  · exact le_refl _
  · rw [distance_to_score_eq_round6 h0, distance_to_score_eq_round6 (le_trans h0 h)]
    exact round6_mono (le_of_lt (compute_score_strictAnti h0 hlt))

theorem distance_to_score_zero : _distance_to_score 0 = 1 := by
  rw [distance_to_score_eq_round6 (le_refl 0), compute_score_of_nonneg (le_refl 0)]
  norm_num [round6_one]

/-! ## Helper lemmas: the clarification graph -/

theorem filterMap_eq_map_of_forall_some {f : α → Option β} {g : α → β} :
    ∀ {l : List α}, (∀ x ∈ l, f x = some (g x)) → l.filterMap f = l.map g := by
  intro l
  induction l with
  | nil => intro _; rfl
  | cons x xs ih =>
    intro h
    rw [List.filterMap_cons, h x (List.mem_cons_self x xs), List.map_cons,
      ih (fun y hy => h y (List.mem_cons_of_mem x hy))]

theorem decide_low_conf_indices_eq (state : ClarificationState) (dt : ℚ) :
    (decide_low_conf_node state dt).low_conf_indices =
      some (((state.scores.getD []).enum.filter
        (fun p => decide (p.2 < state.threshold.getD dt))).map Prod.fst) := rfl

theorem mem_low_conf_indices (state : ClarificationState) (dt : ℚ) (i : ℕ) :
    i ∈ ((decide_low_conf_node state dt).low_conf_indices.getD []) ↔
      ∃ h : i < (state.scores.getD []).length,
        (state.scores.getD []).get ⟨i, h⟩ < state.threshold.getD dt := by
  rw [decide_low_conf_indices_eq, Option.getD_some]
  simp only [List.mem_map, List.mem_filter, Prod.exists]
  constructor
  · rintro ⟨a, b, ⟨hmem, hlt⟩, rfl⟩
    rw [List.mk_mem_enum_iff_getElem?, List.getElem?_eq_some] at hmem
    obtain ⟨h, rfl⟩ := hmem
    exact ⟨h, by simpa [List.get_eq_getElem] using hlt⟩
  · rintro ⟨h, hlt⟩
    refine ⟨i, (state.scores.getD []).get ⟨i, h⟩,
      ⟨List.mk_mem_enum_iff_getElem?.mpr ?_, by simpa using hlt⟩, rfl⟩
    rw [List.get_eq_getElem]
    exact List.getElem?_eq_getElem h

theorem low_conf_indices_lt_scores_length (state : ClarificationState) (dt : ℚ) :
    ∀ i ∈ ((decide_low_conf_node state dt).low_conf_indices.getD []),
      i < (state.scores.getD []).length := by
  intro i hi
  obtain ⟨h, -⟩ := (mem_low_conf_indices state dt i).mp hi
  exact h

theorem low_conf_ingredients_length (state : ClarificationState) (dt : ℚ)
    (hlen : (state.scores.getD []).length ≤ (state.ingredients.getD []).length) :
    ((decide_low_conf_node state dt).low_conf_ingredients.getD []).length =
      ((decide_low_conf_node state dt).low_conf_indices.getD []).length := by
  have hidx := low_conf_indices_lt_scores_length state dt
  have heq : (decide_low_conf_node state dt).low_conf_ingredients =
      some (((decide_low_conf_node state dt).low_conf_indices.getD []).filterMap
        (fun idx => if idx < (state.ingredients.getD []).length then
          some ((state.ingredients.getD []).getD idx "") else none)) := rfl
  rw [heq, Option.getD_some,
    filterMap_eq_map_of_forall_some (g := fun idx => (state.ingredients.getD []).getD idx "")
      (fun idx hmem => if_pos (lt_of_lt_of_le (hidx idx hmem) hlen)),
    List.length_map]

theorem decide_low_conf_preserves (state : ClarificationState) (dt : ℚ) :
    (decide_low_conf_node state dt).ingredients = state.ingredients ∧
    (decide_low_conf_node state dt).threshold = state.threshold ∧
    (decide_low_conf_node state dt).scores = state.scores ∧
    (decide_low_conf_node state dt).matches = state.matches ∧
    (decide_low_conf_node state dt).questions = state.questions :=
  ⟨rfl, rfl, rfl, rfl, rfl⟩

theorem retrieve_node_preserves (encode : List String → List E)
    (queryStore : List E → ℕ → BatchResp) (state : ClarificationState) :
    (retrieve_node encode queryStore state).ingredients = state.ingredients ∧
    (retrieve_node encode queryStore state).threshold = state.threshold ∧
    (retrieve_node encode queryStore state).questions = state.questions := by
  unfold retrieve_node
  dsimp only
  split <;> exact ⟨rfl, rfl, rfl⟩

theorem retrieve_node_scores_length (encode : List String → List E)
    (queryStore : List E → ℕ → BatchResp) (state : ClarificationState) :
    ∃ sc, (retrieve_node encode queryStore state).scores = some sc ∧
      sc.length ≤ (state.ingredients.getD []).length := by
  unfold retrieve_node
  dsimp only
  split
  · exact ⟨[], rfl, Nat.zero_le _⟩
  · refine ⟨_, rfl, ?_⟩
    rw [List.length_map, List.length_map, List.enum_length]
    calc (((state.ingredients.getD []).map pyStrip).filter (fun t => t ≠ "")).length
        ≤ ((state.ingredients.getD []).map pyStrip).length := List.length_filter_le _ _
      _ = (state.ingredients.getD []).length := List.length_map _ _

/-! ## Claim C1 -/

/-- C1: `decide_low_conf_node` computes `low_conf_indices` as exactly the
indices whose score is strictly below the effective threshold —
`state.threshold` when explicitly set, otherwise the default bound in at
graph build time (an index whose score equals the threshold is not
low-confidence); it is a pure function of `scores` and `threshold` with no
retrieval call; and scores `[0.9, 0.5, 0.71]` with threshold `0.7` yield
`low_conf_indices = [1]`, whether `0.7` comes from the state or from the
default. -/
theorem C1_decide_low_conf_correct :
    (∀ (state : ClarificationState) (dt : ℚ) (i : ℕ),
      i ∈ ((decide_low_conf_node state dt).low_conf_indices.getD []) ↔
        ∃ h : i < (state.scores.getD []).length,
          (state.scores.getD []).get ⟨i, h⟩ < state.threshold.getD dt) ∧
    (∀ (s1 s2 : ClarificationState) (dt : ℚ), s1.scores = s2.scores →
      s1.threshold = s2.threshold →
      (decide_low_conf_node s1 dt).low_conf_indices =
        (decide_low_conf_node s2 dt).low_conf_indices) ∧
    (decide_low_conf_node { scores := some [0.9, 0.5, 0.71], threshold := some 0.7 }
        0.2).low_conf_indices = some [1] ∧
    (decide_low_conf_node { scores := some [0.9, 0.5, 0.71] }
        0.7).low_conf_indices = some [1] := by
  refine ⟨mem_low_conf_indices, ?_, ?_, ?_⟩
  · intro s1 s2 dt hs ht
    rw [decide_low_conf_indices_eq, decide_low_conf_indices_eq, hs, ht]
  · rw [decide_low_conf_indices_eq]
    norm_num [List.enum, List.enumFrom, List.filter_cons]
  · rw [decide_low_conf_indices_eq]
    norm_num [List.enum, List.enumFrom, List.filter_cons]

/-- Witness for C1: the membership characterisation at index 1 of the scores
`[0.9, 0.5, 0.71]` with threshold `0.7`, and the purity part at two states
differing only in a field other than `scores`/`threshold`. -/
theorem C1_decide_low_conf_correct_witness :
    (1 ∈ ((decide_low_conf_node { scores := some [0.9, 0.5, 0.71], threshold := some 0.7 }
        0.2).low_conf_indices.getD [])) ∧
    (decide_low_conf_node { scores := some [0.9, 0.5, 0.71], threshold := some 0.7 }
        0.2).low_conf_indices =
      (decide_low_conf_node { scores := some [0.9, 0.5, 0.71], threshold := some 0.7, questions := some [] } 0.2).low_conf_indices :=
  ⟨(C1_decide_low_conf_correct.1 _ 0.2 1).mpr
      ⟨by norm_num, by norm_num [List.get]⟩,
    C1_decide_low_conf_correct.2.1 _ _ 0.2 rfl rfl⟩

/-! ## Claim C4 -/

theorem run_graph_all_blank {E : Type} (encode : List String → List E)
    (queryStore : List E → ℕ → BatchResp) (dt : ℚ) (state : ClarificationState)
    (hblank : ∀ t ∈ state.ingredients.getD [], pyStrip t = "") :
    run_clarification_graph encode queryStore dt state =
      { state with
        «matches» := some []
        scores := some []
        low_conf_indices := some []
        low_conf_ingredients := some [] } := by
  have hf : ((state.ingredients.getD []).map pyStrip).filter (fun t => t ≠ "") = [] := by
    rw [List.filter_eq_nil_iff]
    intro a ha
    rw [List.mem_map] at ha
    obtain ⟨t, ht, rfl⟩ := ha
    simp [hblank t ht]
  unfold run_clarification_graph retrieve_node
  dsimp only
  rw [hf]
  rfl

/-- C4: for an empty input batch — `ingredients = []` or every entry blank
after trimming — the machine terminates at DONE with `matches = []`,
`scores = []`, `low_conf_indices = []` and no questions generated, and the
outcome is independent of the collaborators: neither the embedding model nor
the vector store is invoked. -/
theorem C4_empty_input {E : Type} (encode encode' : List String → List E)
    (queryStore queryStore' : List E → ℕ → BatchResp) (dt : ℚ)
    (state : ClarificationState)
    (hblank : ∀ t ∈ state.ingredients.getD [], pyStrip t = "")
    (hq : state.questions = none) :
    (run_clarification_graph encode queryStore dt state).matches = some [] ∧
    (run_clarification_graph encode queryStore dt state).scores = some [] ∧
    (run_clarification_graph encode queryStore dt state).low_conf_indices = some [] ∧
    (run_clarification_graph encode queryStore dt state).questions.getD [] = [] ∧
    run_clarification_graph encode queryStore dt state =
      run_clarification_graph encode' queryStore' dt state := by
  rw [run_graph_all_blank encode queryStore dt state hblank,
    run_graph_all_blank encode' queryStore' dt state hblank]
  refine ⟨rfl, rfl, rfl, ?_, rfl⟩
  show state.questions.getD [] = []
  rw [hq]
  rfl

/-- Witness for C4: a batch whose two entries are both blank after trimming,
with two distinct concrete collaborator pairs. -/
theorem C4_empty_input_witness :
    (∀ t ∈ ({ ingredients := some ["", "  "] } : ClarificationState).ingredients.getD [],
      pyStrip t = "") ∧
    (run_clarification_graph (fun _ => ([] : List ℕ)) (fun _ _ => {}) 0.7
      { ingredients := some ["", "  "] }).matches = some [] ∧
    (run_clarification_graph (fun _ => ([] : List ℕ)) (fun _ _ => {}) 0.7
      { ingredients := some ["", "  "] }).scores = some [] ∧
    (run_clarification_graph (fun _ => ([] : List ℕ)) (fun _ _ => {}) 0.7
      { ingredients := some ["", "  "] }).low_conf_indices = some [] ∧
    (run_clarification_graph (fun _ => ([] : List ℕ)) (fun _ _ => {}) 0.7
      { ingredients := some ["", "  "] }).questions.getD [] = [] ∧
    run_clarification_graph (fun _ => ([] : List ℕ)) (fun _ _ => {}) 0.7
      { ingredients := some ["", "  "] } =
      run_clarification_graph (fun l => l.map (fun _ => (1 : ℕ)))
        (fun _ _ => { ids := [["x"]] }) 0.7 { ingredients := some ["", "  "] } := by
  have h := C4_empty_input (E := ℕ) (fun _ => []) (fun l => l.map (fun _ => 1))
    (fun _ _ => {}) (fun _ _ => { ids := [["x"]] }) 0.7
    { ingredients := some ["", "  "] } (by decide) rfl
  exact ⟨by decide, h.1, h.2.1, h.2.2.1, h.2.2.2.1, h.2.2.2.2⟩

/-! ## Claim C5 -/

/-- C5 (failing input): for `ingredients = ["a", " ", "b"]` — one blank
entry — and a store returning no candidates, `retrieve_node` populates
`matches` and `scores` of length 2 (the filtered list), not
`len(ingredients) = 3`, and `decide_low_conf_node` mirrors low-confidence
index 1 to the raw entry `" "` although score index 1 was computed for
`"b"`: the claimed alignment invariant fails on the code. -/
theorem C5_alignment_failing_input :
    ((run_clarification_graph (fun _ => ([] : List ℕ)) (fun _ _ => {}) 0.7
        { ingredients := some ["a", " ", "b"] }).scores.getD []).length = 2 ∧
    ((run_clarification_graph (fun _ => ([] : List ℕ)) (fun _ _ => {}) 0.7
        { ingredients := some ["a", " ", "b"] }).matches.getD []).length = 2 ∧
    (({ ingredients := some ["a", " ", "b"] } :
        ClarificationState).ingredients.getD []).length = 3 ∧
    (run_clarification_graph (fun _ => ([] : List ℕ)) (fun _ _ => {}) 0.7
        { ingredients := some ["a", " ", "b"] }).low_conf_indices = some [0, 1] ∧
    (run_clarification_graph (fun _ => ([] : List ℕ)) (fun _ _ => {}) 0.7
        { ingredients := some ["a", " ", "b"] }).low_conf_ingredients =
      some ["a", " "] := by
  have h1 : pyStrip "a" = "a" := by decide
  have h2 : pyStrip " " = "" := by decide
  have h3 : pyStrip "b" = "b" := by decide
  have ha : (("a" : String) = "") = False := eq_false (by decide)
  have hb : (("b" : String) = "") = False := eq_false (by decide)
  norm_num [run_clarification_graph, retrieve_node, decide_low_conf_node, router,
    ask_node, retrieveRow, h1, h2, h3, ha, hb, List.enum, List.enumFrom,
    List.filter_cons, sortDescBy]
  decide

/-! ## Claim C6 -/

theorem run_graph_cases {E : Type} (encode : List String → List E)
    (queryStore : List E → ℕ → BatchResp) (dt : ℚ) (state : ClarificationState) :
    (((decide_low_conf_node (retrieve_node encode queryStore state)
          dt).low_conf_indices.getD []) = [] ∧
      run_clarification_graph encode queryStore dt state =
        decide_low_conf_node (retrieve_node encode queryStore state) dt) ∨
    (((decide_low_conf_node (retrieve_node encode queryStore state)
          dt).low_conf_indices.getD []) ≠ [] ∧
      run_clarification_graph encode queryStore dt state =
        ask_node (decide_low_conf_node (retrieve_node encode queryStore state) dt)) := by
  by_cases he : ((decide_low_conf_node (retrieve_node encode queryStore state)
      dt).low_conf_indices.getD []).isEmpty
  · left
    refine ⟨List.isEmpty_iff.mp he, ?_⟩
    unfold run_clarification_graph router
    dsimp only
    rw [if_pos he]
  · right
    refine ⟨fun hnil => he (List.isEmpty_iff.mpr hnil), ?_⟩
    unfold run_clarification_graph router
    dsimp only
    rw [if_neg he]

/-- C6: a completed run with empty `low_conf_indices` reaches DONE with
`questions` never populated beyond an empty list; a run with non-empty
`low_conf_indices` runs ASK, which produces exactly one question per
low-confidence ingredient, in the same relative order, each being the
deterministic `question_text` template, so
`len(questions) = len(low_conf_indices)`. -/
theorem C6_router_questions {E : Type} (encode : List String → List E)
    (queryStore : List E → ℕ → BatchResp) (dt : ℚ) (state : ClarificationState)
    (hq : state.questions = none) :
    (((run_clarification_graph encode queryStore dt state).low_conf_indices.getD []) = [] →
      (run_clarification_graph encode queryStore dt state).questions.getD [] = []) ∧
    (((run_clarification_graph encode queryStore dt state).low_conf_indices.getD []) ≠ [] →
      (run_clarification_graph encode queryStore dt state).questions =
        some (((run_clarification_graph encode queryStore dt
          state).low_conf_ingredients.getD []).map question_text) ∧
      ((run_clarification_graph encode queryStore dt state).questions.getD []).length =
        ((run_clarification_graph encode queryStore dt
          state).low_conf_indices.getD []).length) := by
  have hlen : ((retrieve_node encode queryStore state).scores.getD []).length ≤
      ((retrieve_node encode queryStore state).ingredients.getD []).length := by
    obtain ⟨sc, hsc, hle⟩ := retrieve_node_scores_length encode queryStore state
    rw [hsc, Option.getD_some, (retrieve_node_preserves encode queryStore state).1]
    exact hle
  have hql := low_conf_ingredients_length (retrieve_node encode queryStore state) dt hlen
  rcases run_graph_cases encode queryStore dt state with ⟨hnil, hrun⟩ | ⟨hnnil, hrun⟩
  · constructor
    · intro _
      rw [hrun, (decide_low_conf_preserves _ dt).2.2.2.2,
        (retrieve_node_preserves encode queryStore state).2.2, hq]
      rfl
    · intro hne
      rw [hrun] at hne
      exact absurd hnil hne
  · constructor
    · intro hnil
      rw [hrun] at hnil
      exact absurd hnil hnnil
    · intro _
      rw [hrun]
      refine ⟨rfl, ?_⟩
      show (((decide_low_conf_node (retrieve_node encode queryStore state)
          dt).low_conf_ingredients.getD []).map question_text).length = _
      rw [List.length_map, hql]
      rfl

/-- Witness for C6: a fresh single-ingredient batch whose only ingredient
gets score `0` (no candidates), hence one low-confidence index and exactly
one templated question. -/
theorem C6_router_questions_witness :
    ({ ingredients := some ["abc"], threshold := some 0.7 } :
      ClarificationState).questions = none ∧
    ((run_clarification_graph (fun l => l.map (fun _ => (0 : ℕ))) (fun _ _ => {}) 0.7
      { ingredients := some ["abc"], threshold := some 0.7 }).low_conf_indices.getD []) ≠ [] ∧
    (run_clarification_graph (fun l => l.map (fun _ => (0 : ℕ))) (fun _ _ => {}) 0.7
      { ingredients := some ["abc"], threshold := some 0.7 }).questions =
      some (((run_clarification_graph (fun l => l.map (fun _ => (0 : ℕ))) (fun _ _ => {}) 0.7
        { ingredients := some ["abc"], threshold := some 0.7 }).low_conf_ingredients.getD []).map
          question_text) ∧
    ((run_clarification_graph (fun l => l.map (fun _ => (0 : ℕ))) (fun _ _ => {}) 0.7
      { ingredients := some ["abc"], threshold := some 0.7 }).questions.getD []).length =
      ((run_clarification_graph (fun l => l.map (fun _ => (0 : ℕ))) (fun _ _ => {}) 0.7
        { ingredients := some ["abc"], threshold := some 0.7 }).low_conf_indices.getD []).length := by
  have h1 : pyStrip "abc" = "abc" := by decide
  have ha : (("abc" : String) = "") = False := eq_false (by decide)
  have hne : ((run_clarification_graph (fun l => l.map (fun _ => (0 : ℕ))) (fun _ _ => {}) 0.7
      { ingredients := some ["abc"], threshold := some 0.7 }).low_conf_indices.getD []) ≠ [] := by
    norm_num [run_clarification_graph, retrieve_node, decide_low_conf_node, router,
      ask_node, retrieveRow, h1, ha, List.enum, List.enumFrom, List.filter_cons,
      sortDescBy]
  have h := (C6_router_questions (fun l => l.map (fun _ => (0 : ℕ))) (fun _ _ => {}) 0.7
    { ingredients := some ["abc"], threshold := some 0.7 } rfl).2 hne
  exact ⟨rfl, hne, h.1, h.2⟩

/-! ## Claim C7 -/

/-- C7 (counterexample): the retriever transform `_distance_to_score` does
not return `1 / (1 + max(d, 0))` exactly: at `d = 2` it returns the rounded
`0.333333`, not `1/3`, and at `d = -1/2` it returns `2` (no clamping of
negative distances), not `1`. -/
theorem C7_counterexample :
    _distance_to_score 2 = 333333 / 1000000 ∧
    _distance_to_score 2 ≠ 1 / (1 + max (2 : ℚ) 0) ∧
    _distance_to_score (-(1 / 2)) = 2 ∧
    _distance_to_score (-(1 / 2)) ≠ 1 / (1 + max (-(1 / 2) : ℚ) 0) := by
  have hmax2 : max (2 : ℚ) 0 = 2 := max_eq_left (by norm_num)
  have hmaxn : max (-(1 / 2) : ℚ) 0 = 0 := max_eq_right (by norm_num)
  norm_num [_distance_to_score, round6, rhe, Rat.floor_def, hmax2, hmaxn]

/-- C7 (amended): the clarification-graph transform `_compute_score` is
exactly `1 / (1 + max(d, 0))` — clamping negative distances — and maps
`0 → 1`, `1 → 1/2`, `2 → 1/3`; the retriever transform `_distance_to_score`
rounds to six decimals and does not clamp: it maps `0 → 1`, `1 → 1/2`,
`2 → 0.333333`, `-1/2 → 2`, and for `d ≥ 0` equals `_compute_score` up to
`round6`. -/
theorem C7_distance_transforms :
    (∀ d : ℚ, d ≤ 0 → _compute_score d = 1) ∧
    (∀ d : ℚ, 0 ≤ d → _distance_to_score d = round6 (_compute_score d)) ∧
    (∀ d : ℚ, _compute_score d = 1 / (1 + max d 0)) ∧
    _compute_score 0 = 1 ∧ _compute_score 1 = 1 / 2 ∧ _compute_score 2 = 1 / 3 ∧
    _distance_to_score 0 = 1 ∧ _distance_to_score 1 = 1 / 2 ∧
    _distance_to_score 2 = 333333 / 1000000 ∧ _distance_to_score (-(1 / 2)) = 2 := by
  have hmax1 : max (1 : ℚ) 0 = 1 := max_eq_left (by norm_num)
  have hmax2 : max (2 : ℚ) 0 = 2 := max_eq_left (by norm_num)
  have hmaxn : max (-(1 / 2) : ℚ) 0 = 0 := max_eq_right (by norm_num)
  refine ⟨fun d hd => compute_score_of_nonpos hd,
    fun d hd => distance_to_score_eq_round6 hd, compute_score_eq, ?_, ?_, ?_, ?_, ?_, ?_, ?_⟩
  · rw [compute_score_of_nonneg (le_refl 0)]; norm_num
  · rw [compute_score_eq, hmax1]; norm_num
  · rw [compute_score_eq, hmax2]; norm_num
  · exact distance_to_score_zero
  · norm_num [_distance_to_score, round6, rhe, Rat.floor_def]
  · norm_num [_distance_to_score, round6, rhe, Rat.floor_def]
  · norm_num [_distance_to_score, round6, rhe, Rat.floor_def]

/-- Witness for C7: the clamping part at `d = -3` and the round6 relation at
`d = 1`. -/
theorem C7_distance_transforms_witness :
    _compute_score (-3) = 1 ∧ _distance_to_score 1 = round6 (_compute_score 1) :=
  ⟨C7_distance_transforms.1 (-3) (by norm_num),
    C7_distance_transforms.2.1 1 (by norm_num)⟩

/-! ## Claim C8 -/

/-- C8 (counterexample): the retriever transform leaves `(0, 1]`: at the
non-negative distance `d = 10000000` it returns exactly `0` (the rounded
value of `1/10000001`), so the claimed range `(0, 1]` and strict
monotonicity fail for `_distance_to_score`. -/
theorem C8_counterexample :
    _distance_to_score 10000000 = 0 ∧ ¬ (0 < _distance_to_score 10000000) := by
  have h : _distance_to_score 10000000 = 0 := by
    norm_num [_distance_to_score, round6, rhe, Rat.floor_def]
  exact ⟨h, by rw [h]; norm_num⟩

/-- C8 (amended): for `d ≥ 0` the clarification-graph transform
`_compute_score` lies in `(0, 1]`, is strictly decreasing, and equals `1`
at `0`; the retriever transform `_distance_to_score` lies in the closed
interval `[0, 1]`, is weakly decreasing, and equals `1` at `0`. -/
theorem C8_monotonicity :
    (∀ d : ℚ, 0 ≤ d → 0 < _compute_score d ∧ _compute_score d ≤ 1) ∧
    (∀ d1 d2 : ℚ, 0 ≤ d1 → d1 < d2 → _compute_score d2 < _compute_score d1) ∧
    _compute_score 0 = 1 ∧
    (∀ d : ℚ, 0 ≤ d → 0 ≤ _distance_to_score d ∧ _distance_to_score d ≤ 1) ∧
    (∀ d1 d2 : ℚ, 0 ≤ d1 → d1 ≤ d2 → _distance_to_score d2 ≤ _distance_to_score d1) ∧
    _distance_to_score 0 = 1 := by
  refine ⟨fun d _ => ⟨compute_score_pos d, compute_score_le_one d⟩,
    fun d1 d2 h0 h => compute_score_strictAnti h0 h, ?_,
    fun d h => ⟨distance_to_score_nonneg h, distance_to_score_le_one h⟩,
    fun d1 d2 h0 h => distance_to_score_anti h0 h, distance_to_score_zero⟩
  rw [compute_score_of_nonneg (le_refl 0)]
  norm_num

/-- Witness for C8: boundedness at `d = 1` and both monotonicity parts on
the pair `1 < 2`. -/
theorem C8_monotonicity_witness :
    (0 < _compute_score 1 ∧ _compute_score 1 ≤ 1) ∧
    _compute_score 2 < _compute_score 1 ∧
    (0 ≤ _distance_to_score 1 ∧ _distance_to_score 1 ≤ 1) ∧
    _distance_to_score 2 ≤ _distance_to_score 1 :=
  ⟨C8_monotonicity.1 1 (by norm_num),
    C8_monotonicity.2.1 1 2 (by norm_num) (by norm_num),
    C8_monotonicity.2.2.2.1 1 (by norm_num),
    C8_monotonicity.2.2.2.2.1 1 2 (by norm_num) (by norm_num)⟩

/-! ## Claim C9 -/

/-- C9 (counterexample): the code strips the query before the substring
test, so for the query `" a"` and candidate name `"a"` — where the
lower-cased query is *not* a substring of the lower-cased candidate name —
the boost is nevertheless applied: the result is `0.15`, not the unchanged
base `0` the claim requires. -/
theorem C9_counterexample :
    keyword_boosted_score 0 " a" "a" = _KEYWORD_BOOST ∧
    _KEYWORD_BOOST ≠ 0 ∧
    isSubstrCh (lowerCh " a".data) (lowerCh "a".data) = false := by
  have hsub : isSubstrCh (lowerCh (trimChars " a".data)) (lowerCh "a".data) = true := by
    decide
  refine ⟨?_, by norm_num [_KEYWORD_BOOST], by decide⟩
  rw [keyword_boosted_score, hsub]
  norm_num

/-- C9 (amended): with the query trimmed before lower-casing (as the code
does), `keyword_boosted_score` returns `base + 0.15` exactly when the
trimmed lower-cased query occurs in the lower-cased candidate name and the
base unchanged otherwise; hence it is always `≥ base`, with equality iff
there is no hit, and it may exceed `1`. -/
theorem C9_keyword_boost :
    (∀ (b : ℚ) (q n : String), b ≤ keyword_boosted_score b q n) ∧
    (∀ (b : ℚ) (q n : String),
      keyword_boosted_score b q n = b ↔
        isSubstrCh (lowerCh (trimChars q.data)) (lowerCh n.data) = false) ∧
    (∀ (b : ℚ) (q n : String),
      isSubstrCh (lowerCh (trimChars q.data)) (lowerCh n.data) = true →
        keyword_boosted_score b q n = b + _KEYWORD_BOOST) ∧
    keyword_boosted_score 1 "a" "a" = 1 + _KEYWORD_BOOST ∧
    1 < keyword_boosted_score 1 "a" "a" := by
  have hcase : ∀ (b : ℚ) (q n : String),
      keyword_boosted_score b q n =
        b + (if isSubstrCh (lowerCh (trimChars q.data)) (lowerCh n.data) then
          _KEYWORD_BOOST else 0) := fun _ _ _ => rfl
  have hone : isSubstrCh (lowerCh (trimChars "a".data)) (lowerCh "a".data) = true := by
    decide
  refine ⟨?_, ?_, ?_, ?_, ?_⟩
  · intro b q n
    rw [hcase]
    split
    · norm_num [_KEYWORD_BOOST]
    · norm_num
  · intro b q n
    rw [hcase]
    rcases Bool.eq_false_or_eq_true
        (isSubstrCh (lowerCh (trimChars q.data)) (lowerCh n.data)) with ht | hf
    · norm_num [ht, _KEYWORD_BOOST]
    · norm_num [hf]
  · intro b q n hhit
    rw [hcase, hhit]
    simp
  · rw [hcase, hone]
    simp
  · rw [hcase, hone]
    norm_num [_KEYWORD_BOOST]

/-- Witness for C9: the hit case of the conditional part at base `1`, query
`"a"`, candidate `"a"`. -/
theorem C9_keyword_boost_witness :
    isSubstrCh (lowerCh (trimChars "a".data)) (lowerCh "a".data) = true ∧
    keyword_boosted_score 1 "a" "a" = 1 + _KEYWORD_BOOST :=
  ⟨by decide, C9_keyword_boost.2.2.1 1 "a" "a" (by decide)⟩

/-! ## Claim C2 -/

theorem boosted_eval_single (store : Store ℕ) (e : ℕ) (q tag : String)
    (hs : store e 5 none = .ok (stubResp tag))
    (hq : isSubstrCh (lowerCh (trimChars q.data)) [] = false) :
    _search_semantic_boosted store e q 5 = .ok [stubIngredient tag] := by
  have hnil : lowerCh ("" : String).data = [] := by decide
  unfold _search_semantic_boosted
  rw [hs]
  norm_num [stubResp, boostedCandidates, keyword_boosted_score, _build_ingredient,
    metaDisplayName, strOrElse, truthyBrand, sortDescBy, insertDescBy, stubIngredient,
    hnil, hq, distance_to_score_zero, round6_one]

/-- C2 (counterexample): the brand fallback reuses the *original query's
embedding*; it is not the same as an unfiltered call with the brand
substituted as query text.  With `stubEmbed` (mapping `"q"` to vector `0`
and `"b"` to vector `1`) and `stubStoreBrandEmpty` (brand filter matches
nothing), resolving `"q"` with brand `"b"` yields the candidate stored for
vector `0`, while the unfiltered call with query text `"b"` yields the
candidate stored for vector `1`. -/
theorem C2_counterexample :
    search_ingredient stubEmbed stubStoreBrandEmpty "q" (some "b") 5 =
      .ok [stubIngredient "hit-q"] ∧
    search_ingredient stubEmbed stubStoreBrandEmpty "b" none 5 =
      .ok [stubIngredient "hit-b"] ∧
    search_ingredient stubEmbed stubStoreBrandEmpty "q" (some "b") 5 ≠
      search_ingredient stubEmbed stubStoreBrandEmpty "b" none 5 := by
  have hq : pyStrip "q" = "q" := by decide
  have hb : pyStrip "b" = "b" := by decide
  have hsubb : isSubstrCh (lowerCh (trimChars "b".data)) [] = false := by decide
  have h1 : search_ingredient stubEmbed stubStoreBrandEmpty "q" (some "b") 5 =
      .ok [stubIngredient "hit-q"] := by
    have hemb : stubEmbed (pyStrip "q") = Except.ok 0 := rfl
    unfold search_ingredient
    rw [hemb]
    exact boosted_eval_single stubStoreBrandEmpty 0 "b" "hit-q" rfl hsubb
  have h2 : search_ingredient stubEmbed stubStoreBrandEmpty "b" none 5 =
      .ok [stubIngredient "hit-b"] := by
    have hemb : stubEmbed (pyStrip "b") = Except.ok 1 := rfl
    unfold search_ingredient
    rw [hemb]
    exact boosted_eval_single stubStoreBrandEmpty 1 "b" "hit-b" rfl hsubb
  refine ⟨h1, h2, ?_⟩
  rw [h1, h2]
  intro hcontra
  have h' := congrArg (fun r =>
    match r with
    | Except.ok (x :: _) => x.id
    | _ => "") hcontra
  dsimp only [stubIngredient] at h'
  exact absurd h' (by decide)

/-- C2 (amended): when the brand-filtered request raises or returns zero
candidates, `search_ingredient` falls back to the unfiltered boosted search
that keeps the *original query's embedding* and uses the brand string as
the effective query text for the keyword boost; the fallback is not an
error, and it is non-empty whenever the unfiltered store response for that
embedding is non-empty and well-formed. -/
theorem C2_brand_fallback {E : Type} (embed : String → Except CollabError E)
    (store : Store E) (q b : String) (k : ℕ) (e : E)
    (hemb : embed (pyStrip q) = .ok e)
    (hfail : (∃ er, store e k (some b) = .error er) ∨
      (∃ raw, store e k (some b) = .ok raw ∧ raw.ids = [])) :
    search_ingredient embed store q (some b) k =
      _search_semantic_boosted store e b k ∧
    (∀ raw, store e k none = .ok raw → raw.ids ≠ [] →
      raw.ids.length ≤ raw.distances.length →
      raw.ids.length ≤ raw.metadatas.length →
      ∃ out, search_ingredient embed store q (some b) k = .ok out ∧ out ≠ []) := by
  have hfall : search_ingredient embed store q (some b) k =
      _search_semantic_boosted store e b k := by
    unfold search_ingredient
    rw [hemb]
    show _search_with_brand store e b k = _
    unfold _search_with_brand
    dsimp only
    rcases hfail with ⟨er, her⟩ | ⟨raw, hraw, hids⟩
    · rw [her]
    · rw [hraw]
      dsimp only
      rw [if_pos hids]
  refine ⟨hfall, ?_⟩
  intro raw hraw hne hd hm
  rw [hfall]
  unfold _search_semantic_boosted
  rw [hraw]
  dsimp only
  rw [if_neg (by omega)]
  refine ⟨_, rfl, ?_⟩
  have hlen : (sortDescBy (fun r => r.similarity_score)
      (boostedCandidates raw b)).length = (boostedCandidates raw b).length :=
    length_sortDescBy _ _
  have hblen : (boostedCandidates raw b).length = raw.ids.length := by
    unfold boostedCandidates
    rw [List.length_map, List.length_zip, List.length_zip]
    omega
  intro hnil
  rw [hnil] at hlen
  simp only [List.length_nil] at hlen
  rw [hblen] at hlen
  exact hne (List.length_eq_zero.mp hlen.symm)

/-- Witness for C2: query `"q"`, brand `"b"`, with the brand filter matching
nothing in `stubStoreBrandEmpty`; the fallback equals the unfiltered
boosted search for the original embedding `0` with `"b"` as boost text, and
is non-empty. -/
theorem C2_brand_fallback_witness :
    stubEmbed (pyStrip "q") = .ok 0 ∧
    stubStoreBrandEmpty 0 5 (some "b") = .ok {} ∧
    search_ingredient stubEmbed stubStoreBrandEmpty "q" (some "b") 5 =
      _search_semantic_boosted stubStoreBrandEmpty 0 "b" 5 ∧
    (∃ out, search_ingredient stubEmbed stubStoreBrandEmpty "q" (some "b") 5 =
      .ok out ∧ out ≠ []) := by
  have h := C2_brand_fallback stubEmbed stubStoreBrandEmpty "q" "b" 5 0 rfl
    (Or.inr ⟨{}, rfl, rfl⟩)
  exact ⟨rfl, rfl, h.1, h.2 (stubResp "hit-q") rfl (by decide) (by decide) (by decide)⟩

/-! ## Claim C3 -/

/-- C3 (counterexample): a genuine transport/availability failure raised by
the store during the brand-filtered request *is* silently converted into a
fallback result: with `stubStoreBrandFail` the filtered call fails with
`storeUnavailable`, yet `search_ingredient` returns the unfiltered fallback
`.ok` result instead of propagating the error. -/
theorem C3_counterexample :
    stubStoreBrandFail 0 5 (some "b") = .error .storeUnavailable ∧
    search_ingredient stubEmbedZero stubStoreBrandFail "q" (some "b") 5 =
      .ok [stubIngredient "x1"] := by
  have hsubb : isSubstrCh (lowerCh (trimChars "b".data)) [] = false := by decide
  refine ⟨rfl, ?_⟩
  have hemb : stubEmbedZero (pyStrip "q") = Except.ok 0 := rfl
  unfold search_ingredient
  rw [hemb]
  exact boosted_eval_single stubStoreBrandFail 0 "b" "x1" rfl hsubb

/-- C3 (amended): an embedding failure propagates to the caller unmodified,
and a store failure on the unfiltered path propagates unmodified; but *any*
store error raised during the brand-filtered request — a transport failure
as much as a filter-not-applicable rejection — is caught and converted into
the unfiltered fallback with the brand as boost text (whose own failure, if
any, then propagates). -/
theorem C3_error_propagation :
    (∀ {E : Type} (embed : String → Except CollabError E) (store : Store E)
      (q : String) (brand : Option String) (k : ℕ) (er : CollabError),
      embed (pyStrip q) = .error er →
      search_ingredient embed store q brand k = .error er) ∧
    (∀ {E : Type} (embed : String → Except CollabError E) (store : Store E)
      (q : String) (k : ℕ) (e : E) (er : CollabError),
      embed (pyStrip q) = .ok e → store e k none = .error er →
      search_ingredient embed store q none k = .error er) ∧
    (∀ {E : Type} (embed : String → Except CollabError E) (store : Store E)
      (q b : String) (k : ℕ) (e : E) (er : CollabError),
      embed (pyStrip q) = .ok e → store e k (some b) = .error er →
      search_ingredient embed store q (some b) k =
        _search_semantic_boosted store e b k) := by
  refine ⟨?_, ?_, ?_⟩
  · intro E embed store q brand k er he
    unfold search_ingredient
    rw [he]
  · intro E embed store q k e er he hs
    unfold search_ingredient
    rw [he]
    show _search_semantic_boosted store e q k = _
    unfold _search_semantic_boosted
    rw [hs]
  · intro E embed store q b k e er he hs
    unfold search_ingredient
    rw [he]
    show _search_with_brand store e b k = _
    unfold _search_with_brand
    dsimp only
    rw [hs]

/-- Witness for C3: all three propagation facts at concrete collaborators —
a failing embedding, a failing unfiltered store, and a brand-filtered
transport failure that falls back. -/
theorem C3_error_propagation_witness :
    search_ingredient (fun _ => (.error .modelUnavailable : Except CollabError ℕ))
      (fun _ _ _ => .ok {}) "q" (some "b") 5 = .error .modelUnavailable ∧
    search_ingredient stubEmbedZero
      (fun _ _ _ => (.error .storeUnavailable : Except CollabError QueryResp))
      "q" none 5 = .error .storeUnavailable ∧
    search_ingredient stubEmbedZero stubStoreBrandFail "q" (some "b") 5 =
      _search_semantic_boosted stubStoreBrandFail 0 "b" 5 :=
  ⟨C3_error_propagation.1 _ _ "q" (some "b") 5 .modelUnavailable rfl,
    C3_error_propagation.2.1 _ _ "q" 5 0 .storeUnavailable rfl rfl,
    C3_error_propagation.2.2 _ _ "q" "b" 5 0 .storeUnavailable rfl rfl⟩

/-! ## Claim C10 -/

theorem boosted_similarity_map (raw : QueryResp) (q : String)
    (hd : raw.distances.length = raw.ids.length)
    (hm : raw.metadatas.length = raw.ids.length) :
    (boostedCandidates raw q).map (fun r => r.similarity_score) =
      (raw.distances.zip raw.metadatas).map (fun p =>
        keyword_boosted_score (_distance_to_score p.1) q
          (metaDisplayName (p.2.getD {}))) := by
  unfold boostedCandidates
  rw [List.map_map]
  have hlen : (raw.distances.zip raw.metadatas).length ≤ raw.ids.length := by
    rw [List.length_zip]
    omega
  have hsnd : List.map Prod.snd (raw.ids.zip (raw.distances.zip raw.metadatas)) =
      raw.distances.zip raw.metadatas :=
    List.map_snd_zip raw.ids (raw.distances.zip raw.metadatas) hlen
  calc List.map _ (raw.ids.zip (raw.distances.zip raw.metadatas))
      = List.map ((fun p => keyword_boosted_score (_distance_to_score p.1) q
          (metaDisplayName (p.2.getD {}))) ∘ Prod.snd)
        (raw.ids.zip (raw.distances.zip raw.metadatas)) := by
        apply List.map_congr_left
        rintro ⟨i, d, m⟩ _
        show (_build_ingredient i d (m.getD {})
          (some (keyword_boosted_score (_distance_to_score d) q
            (metaDisplayName (m.getD {}))))).similarity_score = _
        show round6 ((some (keyword_boosted_score (_distance_to_score d) q
          (metaDisplayName (m.getD {})))).getD (_distance_to_score d)) = _
        rw [Option.getD_some]
        unfold keyword_boosted_score _distance_to_score
        exact round6_add_boost _ _
    _ = (raw.distances.zip raw.metadatas).map (fun p =>
          keyword_boosted_score (_distance_to_score p.1) q
            (metaDisplayName (p.2.getD {}))) := by
        rw [← List.map_map, hsnd]

/-- C10: for an unfiltered query whose collaborators succeed with a
well-formed store response of at most `top_k` rows, `search_ingredient`
returns the boosted candidates sorted descending by their
`keyword_boosted_score (_distance_to_score distance) query name` score,
stably — candidates of equal adjusted score keep their original store
order — with at most `top_k` results. -/
theorem C10_unfiltered_ranking {E : Type} (embed : String → Except CollabError E)
    (store : Store E) (q : String) (k : ℕ) (e : E) (raw : QueryResp)
    (hemb : embed (pyStrip q) = .ok e)
    (hstore : store e k none = .ok raw)
    (hd : raw.distances.length = raw.ids.length)
    (hm : raw.metadatas.length = raw.ids.length)
    (hk : raw.ids.length ≤ k) :
    ∃ out, search_ingredient embed store q none k = .ok out ∧
      out.length ≤ k ∧
      out.Pairwise (fun a b => b.similarity_score ≤ a.similarity_score) ∧
      List.Perm out (boostedCandidates raw q) ∧
      (∀ c : ℚ, out.filter (fun r => r.similarity_score = c) =
        (boostedCandidates raw q).filter (fun r => r.similarity_score = c)) ∧
      (boostedCandidates raw q).map (fun r => r.similarity_score) =
        (raw.distances.zip raw.metadatas).map (fun p =>
          keyword_boosted_score (_distance_to_score p.1) q
            (metaDisplayName (p.2.getD {}))) := by
  have hrun : search_ingredient embed store q none k =
      .ok (sortDescBy (fun r => r.similarity_score) (boostedCandidates raw q)) := by
    unfold search_ingredient
    rw [hemb]
    show _search_semantic_boosted store e q k = _
    unfold _search_semantic_boosted
    rw [hstore]
    dsimp only
    rw [if_neg (by omega)]
  refine ⟨_, hrun, ?_, sortDescBy_sorted _ _, sortDescBy_perm _ _, ?_,
    boosted_similarity_map raw q hd hm⟩
  · rw [length_sortDescBy]
    unfold boostedCandidates
    rw [List.length_map, List.length_zip, List.length_zip]
    omega
  · intro c
    apply filter_sortDescBy
    intro a b ha hb
    rw [of_decide_eq_true ha, of_decide_eq_true hb]

/-- Witness for C10: the single-candidate store `stubResp "y"` with the
constant embedding, at `top_k = 5`. -/
theorem C10_unfiltered_ranking_witness :
    ∃ out, search_ingredient stubEmbedZero (fun _ _ _ => .ok (stubResp "y")) "q" none 5 =
        .ok out ∧
      out.length ≤ 5 ∧
      out.Pairwise (fun a b => b.similarity_score ≤ a.similarity_score) ∧
      List.Perm out (boostedCandidates (stubResp "y") "q") ∧
      (∀ c : ℚ, out.filter (fun r => r.similarity_score = c) =
        (boostedCandidates (stubResp "y") "q").filter (fun r => r.similarity_score = c)) ∧
      (boostedCandidates (stubResp "y") "q").map (fun r => r.similarity_score) =
        ((stubResp "y").distances.zip (stubResp "y").metadatas).map (fun p =>
          keyword_boosted_score (_distance_to_score p.1) "q"
            (metaDisplayName (p.2.getD {}))) :=
  C10_unfiltered_ranking stubEmbedZero (fun _ _ _ => .ok (stubResp "y")) "q" 5 0
    (stubResp "y") rfl rfl (by decide) (by decide) (by decide)
